import Mathlib

/-!
Verification development for the backend-zkp credential service.

The definitions below are a shallow embedding of the JavaScript sources:
  - the credential verifier (zkp-verifier: verifyCredentialWithIssuer,
    validateCredentialStructure, compareCredentialData, extractProofInfo),
  - the route handlers (register, login, wallet-auth helpers:
    extractZkpDataFromCredential, createDIDInIssuer, createCredentialInIssuer,
    the in-memory user store),
  - the proof-query builders (createCombinedQuery and friends),
  - the input validators (validateUserData, validateEmail).

Modelling conventions:
  - JavaScript `undefined`/`null`/absent fields become `Option`; JS truthiness
    of a string is `jsTruthyStr` (absent and the empty string are falsy).
  - Network calls are parameters: each axios request's outcome is passed in as
    an `Except` value (error = the request rejected, ok = `response.data`).
  - Ambient time (`Date.now()`) is passed explicitly as a `now : Nat` parameter
    where a definition depends on it; ISO timestamp strings attached to
    responses purely for display are omitted.
  - The SHA-256 password digest is an abstract parameter
    `hashData : String → String`; no claim depends on its internals.
-/

/-- JS truthiness of an optional string field: absent and `""` are falsy. -/
def jsTruthyStr (o : Option String) : Bool :=
  match o with
  | none => false
  | some s => s ≠ ""

/-- JS truthiness of an optional boolean field: only `true` is truthy. -/
def jsTruthyBool (o : Option Bool) : Bool :=
  o = some true

/-- JS `x || null` for an optional string: the empty string collapses to null. -/
def jsOrNullStr (o : Option String) : Option String :=
  match o with
  | none => none
  | some s => if s = "" then none else some s

/-- JS `x || fallback` for an optional string. -/
def jsOrStr (o : Option String) (fallback : String) : String :=
  match o with
  | none => fallback
  | some s => if s = "" then fallback else s

/-- JS `s.substring(0, n)` as a list-of-chars prefix. -/
def jsSubstringTo (s : String) (n : Nat) : String :=
  String.mk (s.toList.take n)

/-- JS `haystack.includes(needle)` on strings. -/
def jsIncludesAux (needle : List Char) : List Char → Bool
  | [] => needle.isEmpty
  | c :: rest => needle.isPrefixOf (c :: rest) || jsIncludesAux needle rest

def jsIncludes (haystack needle : String) : Bool :=
  jsIncludesAux needle.toList haystack.toList

/-! ## Credential data model (the JSON shapes the routes and verifier read) -/

/-- Merkle-tree proof fragment inside `proof.issuerData.mtp`. -/
structure MTPData where
  existence : Option Bool
  siblings : Option (List String)
deriving DecidableEq, Repr

/-- The issuer state object inside `proof.issuerData.state`. -/
structure IssuerStateData where
  value : Option String
  claimsTreeRoot : Option String
deriving DecidableEq, Repr

/-- The `issuerData` object of a credential proof. -/
structure IssuerDataObj where
  id : Option String
  state : Option IssuerStateData
  authCoreClaim : Option String
  mtp : Option MTPData
  credentialStatus : Option String
deriving DecidableEq, Repr

/-- One cryptographic proof object attached to a credential. -/
structure ProofObj where
  type : Option String
  signature : Option String
  coreClaim : Option String
  issuerData : Option IssuerDataObj
deriving DecidableEq, Repr

/-- The `proof` field of a credential: a JSON array of proof objects, or a
single non-array proof value (`Array.isArray` distinguishes the two). -/
inductive ProofField where
  | arr (proofs : List ProofObj)
  | single (proof : ProofObj)
deriving DecidableEq, Repr

/-- The `type` field of a credential: an array of type tags, or some non-array
value of which only JS truthiness is observable. -/
inductive CredType where
  | arr (tags : List String)
  | nonArray (truthy : Bool)
deriving DecidableEq, Repr

/-- The `credentialSubject` object. -/
structure CredentialSubject where
  id : Option String
  email : Option String
deriving DecidableEq, Repr

/-- A W3C-shaped credential as the JavaScript reads it; every field may be
absent. A bare credential reference (the POST /credentials response) is a
`Credential` whose only populated field is `id`. -/
structure Credential where
  id : Option String
  type : Option CredType
  issuer : Option String
  issuanceDate : Option String
  credentialSubject : Option CredentialSubject
  proof : Option ProofField
deriving DecidableEq, Repr

/-- JS truthiness of the optional `type` field (any array is truthy). -/
def credTypeTruthy (o : Option CredType) : Bool :=
  match o with
  | none => false
  | some (.arr _) => true
  | some (.nonArray b) => b

/-- The structure check on `type`: `Array.isArray(credential.type) &&
credential.type.includes('VerifiableCredential')`. -/
def typeHasVC (o : Option CredType) : Bool :=
  match o with
  | some (.arr tags) => tags.contains "VerifiableCredential"
  | _ => false

/-- The issuer node GET-credential response body `response.data`:
`{ revoked, vc, proofTypes, ... }`. `asCredential` is the same JSON object
read as a credential (used by the `data.vc || data` fallback). -/
structure IssuerCredResponse where
  revoked : Option Bool
  vc : Option Credential
  proofTypes : Option (List String)
  asCredential : Credential
deriving DecidableEq, Repr

/-! ## validateCredentialStructure (zkp-verifier) -/

/-- Result shape `{ valid, error }` of the structure and data checks. -/
structure ValidationResult where
  valid : Bool
  error : Option String
deriving DecidableEq, Repr

/-- validateCredentialStructure: required-fields loop (in source order), the
`type` array check, then the `credentialSubject.id` check. -/
def validateCredentialStructure (credential : Option Credential) : ValidationResult :=
  match credential with
  | none => ⟨false, some "Credencial vacía"⟩
  | some c =>
    if ¬ jsTruthyStr c.id then ⟨false, some "Campo requerido faltante: id"⟩
    else if ¬ credTypeTruthy c.type then ⟨false, some "Campo requerido faltante: type"⟩
    else if ¬ jsTruthyStr c.issuer then ⟨false, some "Campo requerido faltante: issuer"⟩
    else if ¬ jsTruthyStr c.issuanceDate then ⟨false, some "Campo requerido faltante: issuanceDate"⟩
    else if c.credentialSubject.isNone then ⟨false, some "Campo requerido faltante: credentialSubject"⟩
    else if ¬ typeHasVC c.type then
      ⟨false, some "Tipo de credencial inválido (debe incluir VerifiableCredential)"⟩
    else if ¬ jsTruthyStr (c.credentialSubject.bind CredentialSubject.id) then
      ⟨false, some "credentialSubject.id es requerido"⟩
    else ⟨true, none⟩

/-! ## compareCredentialData (zkp-verifier) -/

/-- compareCredentialData: compares `id`, `issuer` and `credentialSubject.id`
of the local credential against the issuer-reported `vc`. Accessing a field of
an absent object throws in JS and is caught, yielding the generic comparison
error. -/
def compareCredentialData (localCred : Credential) (issuerCred : Option Credential) :
    ValidationResult :=
  match issuerCred with
  | none => ⟨false, some "Error comparando datos"⟩
  | some ic =>
    if localCred.id ≠ ic.id then ⟨false, some "ID de credencial no coincide"⟩
    else if localCred.issuer ≠ ic.issuer then ⟨false, some "Issuer no coincide"⟩
    else
      match localCred.credentialSubject, ic.credentialSubject with
      | some ls, some is2 =>
        if ls.id ≠ is2.id then ⟨false, some "Subject ID no coincide"⟩
        else ⟨true, none⟩
      | _, _ => ⟨false, some "Error comparando datos"⟩

/-! ## extractProofInfo (zkp-verifier): the redacted proof summary -/

/-- Redacted `mtp` summary: existence flag and sibling count only. -/
structure ProofInfoMtp where
  existence : Option Bool
  siblingsCount : Nat
deriving DecidableEq, Repr

/-- Redacted issuerData summary. The `state` values use the JS expression
`x?.y?.substring(0,20) + '...' || null`: when the field is absent the
concatenation yields the (truthy) string "undefined...". -/
structure ProofInfoIssuerData where
  id : Option String
  stateValue : Option String
  stateClaimsTreeRoot : Option String
  authCoreClaim : Option String
  mtp : ProofInfoMtp
deriving DecidableEq, Repr

/-- One summarized proof entry. -/
structure ProofInfoEntry where
  type : Option String
  signature : Option String
  coreClaim : Option String
  issuerData : Option ProofInfoIssuerData
deriving DecidableEq, Repr

/-- The `proofInfo` object returned by extractProofInfo. -/
structure ProofInfo where
  types : List String
  proofs : List ProofInfoEntry
deriving DecidableEq, Repr

/-- Models `proof.issuerData.state?.value?.substring(0, 20) + '...' || null`:
present values are truncated to a 20-char prefix plus "..."; absent values
become the string "undefined..." (never null, since both are truthy). -/
def stateFieldTrunc (o : Option String) : Option String :=
  match o with
  | some s => some (jsSubstringTo s 20 ++ "...")
  | none => some ("undefined" ++ "...")

/-- Models `x ? x.substring(0, n) + '...' : null`. -/
def truncOrNull (o : Option String) (n : Nat) : Option String :=
  match o with
  | some s => if s ≠ "" then some (jsSubstringTo s n ++ "...") else none
  | none => none

/-- Summarize one proof object (body of the forEach in extractProofInfo). -/
def summarizeProof (proof : ProofObj) : ProofInfoEntry :=
  { type := proof.type
    signature := truncOrNull proof.signature 20
    coreClaim := truncOrNull proof.coreClaim 40
    issuerData :=
      match proof.issuerData with
      | none => none
      | some d =>
        some { id := d.id
               stateValue := stateFieldTrunc (d.state.bind IssuerStateData.value)
               stateClaimsTreeRoot := stateFieldTrunc (d.state.bind IssuerStateData.claimsTreeRoot)
               authCoreClaim := truncOrNull d.authCoreClaim 40
               mtp := { existence := (d.mtp.bind MTPData.existence)
                        siblingsCount := ((d.mtp.bind MTPData.siblings).getD []).length } } }

/-- extractProofInfo: `types` from `proofTypes || []`; each proof of
`vc.proof` (a non-array proof is wrapped in a singleton) is summarized. -/
def extractProofInfo (credentialData : IssuerCredResponse) : ProofInfo :=
  { types := credentialData.proofTypes.getD []
    proofs :=
      match credentialData.vc with
      | none => []
      | some vc =>
        match vc.proof with
        | none => []
        | some (.arr proofs) => proofs.map summarizeProof
        | some (.single p) => [summarizeProof p] }

/-! ## verifyCredentialWithIssuer (zkp-verifier): the verification gate -/

/-- The verdict produced by verifyCredentialWithIssuer. On success the gate
attaches `details.zkpProof = extractProofInfo(response.data)`. -/
structure VerifyResult where
  verified : Bool
  error : Option String
  stage : Option String
  zkpProof : Option ProofInfo
deriving DecidableEq, Repr

/-- verifyCredentialWithIssuer. The issuer-node GET request's outcome is the
`lookup` parameter: `.error msg` models a rejected axios call (transport,
timeout, availability, HTTP error) with `issuerError.message = msg`; `.ok`
carries `response.data`. Stages in source order: structure validation, issuer
lookup, revocation check, data comparison, then the positive verdict. -/
def verifyCredentialWithIssuer (credential : Credential)
    (lookup : Except String IssuerCredResponse) : VerifyResult :=
  let structureValid := validateCredentialStructure (some credential)
  if structureValid.valid then
    match lookup with
    | .error msg =>
      { verified := false
        error := some ("No se pudo verificar con Issuer Node: " ++ msg)
        stage := some "issuer_node_connection"
        zkpProof := none }
    | .ok resp =>
      if jsTruthyBool resp.revoked then
        { verified := false
          error := some "Credencial revocada"
          stage := some "revocation_check"
          zkpProof := none }
      else
        let dataValid := compareCredentialData credential resp.vc
        if dataValid.valid then
          { verified := true
            error := none
            stage := none
            zkpProof := some (extractProofInfo resp) }
        else
          { verified := false
            error := dataValid.error
            stage := some "data_comparison"
            zkpProof := none }
  else
    { verified := false
      error := structureValid.error
      stage := some "structure_validation"
      zkpProof := none }

/-! ## extractZkpDataFromCredential (routes helper) -/

/-- The issuerData object copied (unredacted) into zkpData. -/
structure ZkpIssuerData where
  id : Option String
  state : Option IssuerStateData
  authCoreClaim : Option String
  mtp : Option MTPData
  credentialStatus : Option String
deriving DecidableEq, Repr

/-- The zkpData object attached to register / wallet-auth / login responses.
`state` is one of "no-proof" or "verified" (the JS catch branch would use
"error"; the typed model's extraction body cannot throw). -/
structure ZkpData where
  identifier : String
  state : String
  proofType : Option String
  coreClaim : Option String
  signature : Option String
  issuerData : Option ZkpIssuerData
deriving DecidableEq, Repr

/-- extractZkpDataFromCredential: if the credential is absent, has no `proof`,
the proof is not an array, or the array is empty, return the basic
"no-proof" record; otherwise copy the FIRST proof's raw material (type,
coreClaim, signature, issuerData — no truncation) with state "verified". -/
def extractZkpDataFromCredential (credential : Option Credential) (did : String) : ZkpData :=
  let noProof : ZkpData :=
    { identifier := did, state := "no-proof", proofType := none
      coreClaim := none, signature := none, issuerData := none }
  match credential with
  | none => noProof
  | some c =>
    match c.proof with
    | none => noProof
    | some (.single _) => noProof
    | some (.arr []) => noProof
    | some (.arr (proof :: _)) =>
      { identifier := did
        state := "verified"
        proofType := some (jsOrStr proof.type "BJJSignature2021")
        coreClaim := jsOrNullStr proof.coreClaim
        signature := jsOrNullStr proof.signature
        issuerData :=
          match proof.issuerData with
          | none => none
          | some d =>
            some { id := d.id
                   state := d.state.map (fun s => ⟨s.value, s.claimsTreeRoot⟩)
                   authCoreClaim := jsOrNullStr d.authCoreClaim
                   mtp := d.mtp.map (fun m => ⟨m.existence, some (m.siblings.getD [])⟩)
                   credentialStatus := jsOrNullStr d.credentialStatus } }

/-! ## The in-memory user store (usersStore Map) -/

/-- A stored principal record as saved by the register route. Display-only
timestamp fields (createdAt, savedAt, zkpVerificationDate) are omitted. -/
structure StoredUser where
  name : String
  email : String
  password : String
  did : Option String
  credential : Option Credential
  zkpData : Option ZkpData
  authMethod : String
  accountState : Option String
  zkpVerified : Bool
deriving DecidableEq, Repr

/-- JS `email.toLowerCase()`, modelled character-wise. -/
def jsToLower (s : String) : String :=
  String.mk (s.toList.map Char.toLower)

/-- The usersStore Map keyed by lower-cased email; the most recent save wins. -/
abbrev Store := List (String × StoredUser)

def saveUser (store : Store) (email : String) (userData : StoredUser) : Store :=
  (jsToLower email, userData) :: store

def getUser (store : Store) (email : String) : Option StoredUser :=
  (store.find? (fun kv => kv.1 = jsToLower email)).map (fun kv => kv.2)

def userExists (store : Store) (email : String) : Bool :=
  (getUser store email).isSome

/-! ## Input validators (datasure.js, validador.js) -/

/-- The userData object the routes assemble before issuance. -/
structure UserData where
  fullName : Option String
  email : Option String
  walletAddress : Option String
  authMethod : Option String
  accountState : Option String
  isVerified : Option Bool
deriving DecidableEq, Repr

structure UserValidation where
  isValid : Bool
  errors : List String
deriving DecidableEq, Repr

def validAuthMethods : List String := ["email", "wallet", "hybrid"]

/-- validateUserData (datasure.js). -/
def validateUserData (userData : UserData) : UserValidation :=
  let errors :=
    (if ¬ jsTruthyStr userData.fullName then ["fullName es requerido"] else []) ++
    (if ¬ jsTruthyStr userData.authMethod then ["authMethod es requerido"] else []) ++
    (match userData.authMethod with
     | some m => if m ≠ "" ∧ ¬ validAuthMethods.contains m then
         ["authMethod debe ser: email, wallet o hybrid"] else []
     | none => [])
  ⟨errors.isEmpty, errors⟩

/-- A character admissible in the email regex classes: anything but
whitespace and the at-sign (the JS class `[^\s@]`). -/
def emailClassChar (c : Char) : Bool :=
  ¬ (c = '@' ∨ c.isWhitespace)

/-- validateEmail (validador.js): transliteration of the anchored regex
`[^\s@]+ @ [^\s@]+ \. [^\s@]+`. The part before the single at-sign is a
non-empty run of class characters; the part after is a run of class
characters containing a dot at some interior position. -/
def validateEmail (email : String) : Bool :=
  let cs := email.toList
  match cs.span (fun c => c ≠ '@') with
  | (before, rest) =>
    match rest with
    | [] => false
    | _ :: after =>
      (¬ before.isEmpty) && before.all emailClassChar &&
      after.all emailClassChar &&
      ((List.range after.length).any fun i =>
        after.getD i ' ' = '.' && decide (1 ≤ i) && decide (i + 1 < after.length))

/-! ## IssuerClient helpers (createDIDInIssuer, createCredentialInIssuer) -/

/-- The observable shape of a rejected axios call: `error.code`
(ECONNABORTED, ECONNREFUSED, ...), `error.response?.status`,
`error.message`, and `error.response?.data?.message`. -/
structure AxiosError where
  code : Option String
  status : Option Nat
  message : String
  responseMessage : Option String
deriving DecidableEq, Repr

/-- The POST /identities response body: `{ identifier, ... }`. -/
structure DIDResponse where
  identifier : String
deriving DecidableEq, Repr

/-- The error-classification chain of createDIDInIssuer's catch block. -/
def didErrorDetail (issuerUrl : String) (e : AxiosError) : String :=
  if e.code = some "ECONNABORTED" then
    "Tiempo de espera agotado. El Issuer Node está tardando demasiado en responder."
  else if e.code = some "ECONNREFUSED" then
    "El Issuer Node no está en ejecución o no es accesible en " ++ issuerUrl
  else if e.status = some 401 then
    "Credenciales de autenticación inválidas para el Issuer Node."
  else if e.status = some 500 then
    "El Issuer Node encontró un error interno al procesar la solicitud."
  else e.message

/-- The message of the Error createDIDInIssuer throws on a failed request. -/
def didErrorMessage (issuerUrl : String) (e : AxiosError) : String :=
  "No se pudo crear el DID (Identidad Descentralizada). " ++ didErrorDetail issuerUrl e ++
  ". Sin un DID válido del Issuer Node no es posible crear credenciales ZKP con firma criptográfica real. Contacta al administrador del sistema."

/-- createDIDInIssuer: on success, the response body; on a rejected request,
a thrown Error carrying the classified message. -/
def createDIDInIssuer (issuerUrl : String) (request : Except AxiosError DIDResponse) :
    Except String DIDResponse :=
  match request with
  | .ok r => .ok r
  | .error e => .error (didErrorMessage issuerUrl e)

/-- The error-classification chain of createCredentialInIssuer's outer catch
block (each branch throws the accumulated errorMessage). -/
def credErrorMessage (e : AxiosError) : String :=
  let base := "No se pudo crear la credencial ZKP. "
  if e.code = some "ECONNABORTED" then
    base ++ "Tiempo de espera agotado (timeout). El Issuer Node está tardando más de lo esperado en responder. El servidor puede estar sobrecargado o procesando muchas solicitudes. Inténtalo nuevamente en unos momentos. Si el problema persiste, contacta al administrador."
  else if e.code = some "ECONNREFUSED" || jsIncludes e.message "connect" then
    base ++ "El Issuer Node no está disponible o no responde. El servidor de emisión de credenciales está fuera de línea. Por favor, contacta al administrador del sistema."
  else if e.status = some 401 || e.status = some 403 then
    base ++ "Error de autenticación con el Issuer Node. Las credenciales de acceso al servidor de emisión son inválidas. Contacta al administrador."
  else if e.status = some 400 then
    base ++ "Los datos proporcionados son inválidos. " ++
      jsOrStr e.responseMessage "Verifica que todos los campos sean correctos."
  else if e.status = some 500 then
    base ++ "Error interno del Issuer Node. El servidor de emisión encontró un error al procesar la solicitud."
  else
    base ++ e.message ++ " No se puede generar una credencial con firma criptográfica real sin el Issuer Node."

/-- The environment of one createCredentialInIssuer run: the cached issuer
identity (getIssuerDID) and the outcomes of the three axios calls it makes.
`postRes` carries `response.data` of POST /credentials (a bare credential
reference), `publishRes` the state-publish outcome, `fetchRes` the
GET-credential outcome. -/
structure CredCreateEnv where
  issuerDID : Option String
  postRes : Except AxiosError Credential
  publishRes : Except AxiosError Unit
  fetchRes : Except AxiosError IssuerCredResponse
deriving Repr

/-- createCredentialInIssuer. A missing issuer identity throws and is caught
by the same catch block that classifies axios failures. A publishRes failure
is caught by its inner catch and only logged (the PublishSkipped policy);
the flow continues to the credential fetch in either case. On a fetch
failure the inner catch falls back to the bare POST response
("Devolviendo solo ID"); on fetch success the result is
`credentialResponse.data.vc || credentialResponse.data`. The `_did` and
`_userData` parameters shape the outgoing request, whose answer is `postRes`. -/
def createCredentialInIssuer (env : CredCreateEnv) (_did : String) (_userData : UserData) :
    Except String Credential :=
  match env.issuerDID with
  | none => .error (credErrorMessage ⟨none, none, "No se pudo obtener el DID del Issuer", none⟩)
  | some _ =>
    match env.postRes with
    | .error e => .error (credErrorMessage e)
    | .ok postData =>
      match env.fetchRes with
      | .ok resp => .ok (resp.vc.getD resp.asCredential)
      | .error _ => .ok postData

/-! ## The register route (POST /api/register) -/

/-- The request body fields the register route reads. -/
structure RegisterInput where
  name : Option String
  email : Option String
  password : Option String
deriving DecidableEq, Repr

/-- The environment of one register run: outcomes of the DID creation, the
credential-issuance pipeline, and the post-registration verification lookup. -/
structure RegisterEnv where
  didRes : Except AxiosError DIDResponse
  credEnv : CredCreateEnv
  verifyLookup : Except String IssuerCredResponse
deriving Repr

/-- The register route's observable outcome: the HTTP response fields the
claims mention plus the resulting store state. -/
structure RegisterOutcome where
  status : Nat
  success : Bool
  errorMsg : Option String
  details : Option String
  detailErrors : Option (List String)
  did : Option String
  credential : Option Credential
  zkpData : Option ZkpData
  store : Store
deriving Repr

/-- A register rejection that leaves the store untouched. -/
def registerReject (store : Store) (status : Nat) (msg : String) : RegisterOutcome :=
  { status := status, success := false, errorMsg := some msg, details := none
    detailErrors := none, did := none, credential := none, zkpData := none, store := store }

/-- The register route handler. Checks in source order: required fields,
duplicate email, validateUserData, validateEmail; then createDIDInIssuer and
createCredentialInIssuer (a thrown error from either reaches the route's
catch as a 500 with `details = error.message` and nothing stored); then the
automatic post-registration verification (its outcome only feeds the
response and the stored zkpVerified flag), zkpData extraction, saveUser,
and the success response. -/
def register (hashData : String → String) (issuerUrl : String) (store : Store)
    (input : RegisterInput) (env : RegisterEnv) : RegisterOutcome :=
  match input.name, input.email, input.password with
  | some name, some email, some password =>
    if name = "" || email = "" || password = "" then
      registerReject store 400 "Faltan datos requeridos"
    else if userExists store email then
      registerReject store 400 "El email ya está registrado. Por favor, inicia sesión."
    else
      let userData : UserData :=
        { fullName := some name, email := some email, walletAddress := none
          authMethod := some "email", accountState := some "active", isVerified := some false }
      let validation := validateUserData userData
      if ¬ validation.isValid then
        { registerReject store 400 "Datos inválidos" with detailErrors := some validation.errors }
      else if ¬ validateEmail email then
        registerReject store 400 "Email inválido"
      else
        match createDIDInIssuer issuerUrl env.didRes with
        | .error msg =>
          { registerReject store 500 "Error al crear cuenta" with details := some msg }
        | .ok didResp =>
          let did := didResp.identifier
          match createCredentialInIssuer env.credEnv did userData with
          | .error msg =>
            { registerReject store 500 "Error al crear cuenta" with details := some msg }
          | .ok credential =>
            let passwordHash := hashData password
            let zkpVerification := verifyCredentialWithIssuer credential env.verifyLookup
            let zkpData := extractZkpDataFromCredential (some credential) did
            let newStore := saveUser store email
              { name := name, email := email, password := passwordHash
                did := some did, credential := some credential, zkpData := some zkpData
                authMethod := "email", accountState := some "active"
                zkpVerified := zkpVerification.verified }
            { status := 200, success := true, errorMsg := none, details := none
              detailErrors := none, did := some did, credential := some credential
              zkpData := some zkpData, store := newStore }
  | _, _, _ => registerReject store 400 "Faltan datos requeridos"

/-! ## The login route (POST /api/login) -/

structure LoginInput where
  email : Option String
  password : Option String
deriving DecidableEq, Repr

/-- The login route's observable outcome: HTTP status, the response fields the
claims mention, and whether the handler reached the Issuer-Service
verification call (`issuerCalled`). -/
structure LoginOutcome where
  status : Nat
  success : Bool
  errorMsg : Option String
  details : Option String
  reason : Option String
  stage : Option String
  did : Option String
  credential : Option Credential
  zkpData : Option ZkpData
  zkpProof : Option ProofInfo
  issuerCalled : Bool
deriving Repr

/-- A login rejection on a path that never contacts the Issuer Service. -/
def loginReject (status : Nat) (msg : String) : LoginOutcome :=
  { status := status, success := false, errorMsg := some msg, details := none
    reason := none, stage := none, did := none, credential := none
    zkpData := none, zkpProof := none, issuerCalled := false }

/-- The stage-specific first line of the login denial message. -/
def loginDenialMessage (stage : Option String) : String :=
  let base := "Acceso denegado: Tu credencial ZKP no pasó la verificación. "
  if stage = some "structure_validation" then
    base ++ "La estructura de la credencial no es válida."
  else if stage = some "issuer_node_connection" then
    base ++ "No se pudo contactar con el Issuer Node para verificar."
  else if stage = some "credential_retrieval" then
    base ++ "La credencial no existe en el Issuer Node."
  else if stage = some "revocation_check" then
    base ++ "La credencial ha sido revocada."
  else if stage = some "data_comparison" then
    base ++ "Los datos de la credencial no coinciden."
  else base ++ "Error desconocido en la verificación."

/-- The stage-specific details line of the login denial message. -/
def loginDenialDetails (stage : Option String) (err : Option String) : String :=
  if stage = some "structure_validation" then
    "La credencial no cumple con el formato W3C Verifiable Credential estándar."
  else if stage = some "issuer_node_connection" then
    "El servidor de verificación (Issuer Node) no está disponible. Intenta más tarde."
  else if stage = some "credential_retrieval" then
    "Tu credencial no fue encontrada en el registro del emisor. Puede haber sido eliminada o nunca fue publicada correctamente."
  else if stage = some "revocation_check" then
    "Tu credencial fue revocada por el emisor y ya no es válida para autenticación."
  else if stage = some "data_comparison" then
    "Los datos almacenados localmente no coinciden con los del Issuer Node."
  else jsOrStr err "La credencial no pudo ser verificada correctamente."

/-- The login route handler. Checks in source order: required fields, user
lookup, password-digest comparison, presence of a stored credential and its
credentialSubject (reason NO_CREDENTIAL / INVALID_CREDENTIAL_STRUCTURE —
decided before any Issuer Service call), then the mandatory credential
verification: a negative verdict is a 401 with the verdict's stage, a
positive one the 200 session response. -/
def login (hashData : String → String) (store : Store) (input : LoginInput)
    (lookup : Except String IssuerCredResponse) : LoginOutcome :=
  match input.email, input.password with
  | some email, some password =>
    if email = "" || password = "" then
      loginReject 400 "Faltan credenciales"
    else
      match getUser store email with
      | none => loginReject 401 "Usuario no encontrado. Por favor, regístrate primero."
      | some user =>
        if user.password ≠ hashData password then
          loginReject 401 "Contraseña incorrecta"
        else
          let credentialDenied (reason : String) : LoginOutcome :=
            { loginReject 401 "Tu cuenta no tiene una credencial ZKP válida registrada. La credencial es necesaria para autenticarte. Contacta al administrador del sistema." with
              reason := some reason }
          match user.credential with
          | none => credentialDenied "NO_CREDENTIAL"
          | some cred =>
            if cred.credentialSubject.isNone then
              credentialDenied "INVALID_CREDENTIAL_STRUCTURE"
            else
              let zkpVerification := verifyCredentialWithIssuer cred lookup
              if zkpVerification.verified then
                { status := 200, success := true, errorMsg := none, details := none
                  reason := none, stage := none, did := user.did
                  credential := some cred, zkpData := user.zkpData
                  zkpProof := zkpVerification.zkpProof, issuerCalled := true }
              else
                { status := 401, success := false
                  errorMsg := some (loginDenialMessage zkpVerification.stage)
                  details := some (loginDenialDetails zkpVerification.stage zkpVerification.error)
                  reason := none, stage := zkpVerification.stage, did := none
                  credential := none, zkpData := none, zkpProof := none
                  issuerCalled := true }
  | _, _ => loginReject 400 "Faltan credenciales"

/-! ## Proof-query builders (zkp-proofs.js) -/

/-- A scalar value appearing in a query predicate or a credential subject. -/
inductive QVal where
  | bool (b : Bool)
  | str (s : String)
  | nat (n : Nat)
deriving DecidableEq, Repr

/-- One predicate object of the query vocabulary used by these builders:
an eq / lt / gt comparison or an existence test. -/
inductive QOp where
  | opEq (v : QVal)
  | opLt (bound : Nat)
  | opGt (bound : Nat)
  | opExists
deriving DecidableEq, Repr

/-- A query object: a mapping from attribute name to predicate, in insertion
order. -/
abbrev ProofQuery := List (String × QOp)

def createVerificationQuery (isVerified : Bool) : ProofQuery :=
  [("isVerified", QOp.opEq (QVal.bool isVerified))]

def createAccountStateQuery (state : String) : ProofQuery :=
  [("accountState", QOp.opEq (QVal.str state))]

def createAuthMethodQuery (method : String) : ProofQuery :=
  [("authMethod", QOp.opEq (QVal.str method))]

/-- createAccountAgeQuery: `now` is `Math.floor(Date.now() / 1000)`. -/
def createAccountAgeQuery (now minDays : Nat) : ProofQuery :=
  [("registrationDate", QOp.opLt (now - minDays * (24 * 60 * 60)))]

/-- The conditions object accepted by createCombinedQuery. The six recognized
keys are explicit fields; any other key the caller might set is collected in
`unknownKeys`, which the builder never reads. -/
structure Conditions where
  isVerified : Option Bool
  accountState : Option String
  authMethod : Option String
  minAge : Option Nat
  hasEmail : Bool
  hasWallet : Bool
  unknownKeys : List (String × String)
deriving DecidableEq, Repr

/-- createCombinedQuery: one guarded entry per recognized condition key, in
source order. The guards mirror JS truthiness: `isVerified` is compared to
undefined, the string conditions and `minAge` are truthy-checked (so the
empty string and 0 are skipped). -/
def createCombinedQuery (now : Nat) (conditions : Conditions) : ProofQuery :=
  (match conditions.isVerified with
   | some b => createVerificationQuery b
   | none => []) ++
  (match conditions.accountState with
   | some s => if s ≠ "" then createAccountStateQuery s else []
   | none => []) ++
  (match conditions.authMethod with
   | some m => if m ≠ "" then createAuthMethodQuery m else []
   | none => []) ++
  (match conditions.minAge with
   | some n => if n ≠ 0 then createAccountAgeQuery now n else []
   | none => []) ++
  (if conditions.hasEmail then [("email", QOp.opExists)] else []) ++
  (if conditions.hasWallet then [("walletAddress", QOp.opExists)] else [])

/-- A credential subject viewed as attribute/value pairs, for interpreting
queries. -/
structure SubjectRecord where
  fields : List (String × QVal)
deriving DecidableEq, Repr

def subjectGet (s : SubjectRecord) (key : String) : Option QVal :=
  (s.fields.find? (fun kv => kv.1 = key)).map (fun kv => kv.2)

/-- Satisfaction of one predicate by a subject attribute (the standard
reading of the operator vocabulary documented in zkp-proofs.js). -/
def opSat (s : SubjectRecord) (key : String) (op : QOp) : Bool :=
  match op with
  | .opEq v => subjectGet s key = some v
  | .opLt bound => match subjectGet s key with
    | some (.nat n) => n < bound
    | _ => false
  | .opGt bound => match subjectGet s key with
    | some (.nat n) => bound < n
    | _ => false
  | .opExists => (subjectGet s key).isSome

/-- A query is satisfied when every entry of the mapping is satisfied: the
mapping is one conjunction, with no disjunctive connective expressible. -/
def satisfiesQuery (q : ProofQuery) (s : SubjectRecord) : Bool :=
  q.all (fun kv => opSat s kv.1 kv.2)

/-- The attribute names the combined builder can ever emit. -/
def combinedQueryKeys : List String :=
  ["isVerified", "accountState", "authMethod", "registrationDate", "email", "walletAddress"]

/-! ## Helper lemmas -/

/-- A structurally valid credential has an array `type` containing
"VerifiableCredential" and a present `credentialSubject`. -/
theorem validateCredentialStructure_valid_facts (c : Credential)
    (h : (validateCredentialStructure (some c)).valid = true) :
    typeHasVC c.type = true ∧ c.credentialSubject.isNone = false := by
  simp only [validateCredentialStructure] at h
  split_ifs at h with h1 h2 h3 h4 h5 h6 h7
  exact ⟨h6, by revert h5; cases c.credentialSubject <;> simp⟩

/-- When the structure check fails, the gate reports stage
structure_validation without consulting the issuer lookup. -/
theorem verify_structure_fail (cred : Credential) (lookup : Except String IssuerCredResponse)
    (h : (validateCredentialStructure (some cred)).valid = false) :
    verifyCredentialWithIssuer cred lookup =
      ⟨false, (validateCredentialStructure (some cred)).error, some "structure_validation", none⟩ := by
  simp [verifyCredentialWithIssuer, h]

/-- C8: a credential whose `type` is not an array containing
"VerifiableCredential" is rejected with verified = false at stage
structure_validation, regardless of every other field and of the issuer
lookup's outcome. -/
theorem vc_type_missing_fails_structure_validation (cred : Credential)
    (lookup : Except String IssuerCredResponse) (h : typeHasVC cred.type = false) :
    (verifyCredentialWithIssuer cred lookup).verified = false ∧
    (verifyCredentialWithIssuer cred lookup).stage = some "structure_validation" := by
  have hv : (validateCredentialStructure (some cred)).valid = false := by
    cases hb : (validateCredentialStructure (some cred)).valid with
    | false => rfl
    | true =>
      have := (validateCredentialStructure_valid_facts cred hb).1
      rw [this] at h
      exact absurd h (by simp)
  rw [verify_structure_fail cred lookup hv]
  exact ⟨rfl, rfl⟩

/-- Witness for the C8 theorem at a concrete credential whose type array
lacks "VerifiableCredential" but whose every other field is valid. -/
theorem vc_type_missing_fails_structure_validation_witness :
    (verifyCredentialWithIssuer
      ⟨some "urn:uuid:1", some (.arr ["SomethingElse"]), some "did:iss", some "2024-01-01",
       some ⟨some "did:user", none⟩, none⟩ (.error "down")).verified = false ∧
    (verifyCredentialWithIssuer
      ⟨some "urn:uuid:1", some (.arr ["SomethingElse"]), some "did:iss", some "2024-01-01",
       some ⟨some "did:user", none⟩, none⟩ (.error "down")).stage = some "structure_validation" :=
  vc_type_missing_fails_structure_validation _ _ (by decide)

/-- C1: when the issuer lookup over the wire fails (transport, timeout,
availability), and the gate actually reaches it (the structure check
passed), the verdict is verified = false at stage issuer_node_connection;
and no input whatsoever yields verified = true without a successful issuer
response — there is no local fallback pass. -/
theorem issuer_lookup_failure_is_terminal :
    (∀ (cred : Credential) (msg : String),
      (validateCredentialStructure (some cred)).valid = true →
      (verifyCredentialWithIssuer cred (.error msg)).verified = false ∧
      (verifyCredentialWithIssuer cred (.error msg)).stage = some "issuer_node_connection") ∧
    (∀ (cred : Credential) (lookup : Except String IssuerCredResponse),
      (verifyCredentialWithIssuer cred lookup).verified = true →
      ∃ resp, lookup = .ok resp) := by
  constructor
  · intro cred msg h
    simp [verifyCredentialWithIssuer, h]
  · intro cred lookup h
    cases lookup with
    | ok resp => exact ⟨resp, rfl⟩
    | error msg =>
      exfalso
      by_cases hs : (validateCredentialStructure (some cred)).valid
      · simp [verifyCredentialWithIssuer, hs] at h
      · simp [verifyCredentialWithIssuer, hs] at h

/-- Witness for the C1 theorem: a structurally valid credential with an
unreachable issuer is denied at stage issuer_node_connection. -/
theorem issuer_lookup_failure_is_terminal_witness :
    (verifyCredentialWithIssuer
      ⟨some "urn:uuid:2", some (.arr ["VerifiableCredential", "ZKPAuthCredential"]),
       some "did:iss", some "2024-01-01", some ⟨some "did:user", none⟩, none⟩
      (.error "timeout of 5000ms exceeded")).verified = false ∧
    (verifyCredentialWithIssuer
      ⟨some "urn:uuid:2", some (.arr ["VerifiableCredential", "ZKPAuthCredential"]),
       some "did:iss", some "2024-01-01", some ⟨some "did:user", none⟩, none⟩
      (.error "timeout of 5000ms exceeded")).stage = some "issuer_node_connection" :=
  issuer_lookup_failure_is_terminal.1 _ "timeout of 5000ms exceeded" (by decide)

/-- The proof-presence test of C10: the credential exists and its `proof`
field is a non-empty array. -/
def proofNonemptyArr (credential : Option Credential) : Bool :=
  match credential with
  | some c =>
    match c.proof with
    | some (.arr (_ :: _)) => true
    | _ => false
  | none => false

/-- C10: zkpData extraction is a total function of the credential whose
`state` label depends only on proof existence: "verified" exactly when the
`proof` field is a non-empty array, "no-proof" exactly otherwise (absent,
empty, or not an array), never consulting any verification outcome; the
identifier is the DID passed in. -/
theorem zkpData_state_is_proof_presence (credential : Option Credential) (did : String) :
    ((extractZkpDataFromCredential credential did).state = "verified" ↔
      proofNonemptyArr credential = true) ∧
    ((extractZkpDataFromCredential credential did).state = "no-proof" ↔
      proofNonemptyArr credential = false) ∧
    (extractZkpDataFromCredential credential did).identifier = did := by
  rcases credential with _ | c
  · simp [extractZkpDataFromCredential, proofNonemptyArr]
  · rcases hp : c.proof with _ | pf
    · simp [extractZkpDataFromCredential, proofNonemptyArr, hp]
    · cases pf with
      | arr l =>
        cases l <;> simp [extractZkpDataFromCredential, proofNonemptyArr, hp]
      | single p =>
        simp [extractZkpDataFromCredential, proofNonemptyArr, hp]


/-- Concrete structurally-valid credential for the C2 witness. -/
def c2Cred : Credential :=
  ⟨some "urn:uuid:3", some (.arr ["VerifiableCredential"]), some "did:iss",
   some "2024-01-01", some ⟨some "did:user", none⟩, none⟩

/-- Concrete stored principal for the C2 witness. -/
def c2User : StoredUser :=
  ⟨"Ana", "ana@example.com", "s3cr3t", some "did:user", some c2Cred, none,
   "email", some "active", true⟩

def c2Store : Store := [("ana@example.com", c2User)]

/-- Concrete revoked issuer record for the C2 witness. -/
def c2Resp : IssuerCredResponse :=
  ⟨some true, none, none, ⟨none, none, none, none, none, none⟩⟩

/-- C2: a stored principal whose issuer-reported record is revoked is denied
login at stage revocation_check even though the password digest matches:
the 401 denial carries stage revocation_check. The hypotheses say the gate
reaches the revocation stage: the stored credential exists and passes the
structure check, and the issuer lookup returned a record with
revoked = true. -/
theorem revoked_record_denies_login_at_revocation_check
    (hashData : String → String) (store : Store) (email password : String)
    (user : StoredUser) (cred : Credential) (resp : IssuerCredResponse)
    (he : email ≠ "") (hp : password ≠ "")
    (hu : getUser store email = some user)
    (hpw : user.password = hashData password)
    (hc : user.credential = some cred)
    (hsv : (validateCredentialStructure (some cred)).valid = true)
    (hrev : resp.revoked = some true) :
    (login hashData store ⟨some email, some password⟩ (.ok resp)).status = 401 ∧
    (login hashData store ⟨some email, some password⟩ (.ok resp)).success = false ∧
    (login hashData store ⟨some email, some password⟩ (.ok resp)).stage = some "revocation_check" := by
  have hsubj : cred.credentialSubject.isNone = false :=
    (validateCredentialStructure_valid_facts cred hsv).2
  have hverdict : (verifyCredentialWithIssuer cred (.ok resp)).verified = false ∧
      (verifyCredentialWithIssuer cred (.ok resp)).stage = some "revocation_check" := by
    simp [verifyCredentialWithIssuer, hsv, jsTruthyBool, hrev]
  simp [login, he, hp, hu, hpw, hc, hsubj, hverdict.1, hverdict.2]

/-- Witness for the C2 theorem: the concrete store above with the matching
password and a revoked issuer record. -/
theorem revoked_record_denies_login_at_revocation_check_witness :
    (login (fun s => s) c2Store ⟨some "ana@example.com", some "s3cr3t"⟩ (.ok c2Resp)).status = 401 ∧
    (login (fun s => s) c2Store ⟨some "ana@example.com", some "s3cr3t"⟩ (.ok c2Resp)).success = false ∧
    (login (fun s => s) c2Store ⟨some "ana@example.com", some "s3cr3t"⟩ (.ok c2Resp)).stage =
      some "revocation_check" :=
  revoked_record_denies_login_at_revocation_check (fun s => s) c2Store
    "ana@example.com" "s3cr3t" c2User c2Cred c2Resp
    (by decide) (by decide) (by decide) rfl rfl (by decide) rfl

/-- C3: a login attempt against a stored principal with no stored credential
never reaches the Issuer Service and never succeeds, and when the password
digest matches, the 401 denial carries reason NO_CREDENTIAL. -/
theorem no_credential_denies_login_without_issuer_call
    (hashData : String → String) (store : Store) (email password : String)
    (user : StoredUser) (lookup : Except String IssuerCredResponse)
    (he : email ≠ "") (hp : password ≠ "")
    (hu : getUser store email = some user)
    (hc : user.credential = none) :
    (login hashData store ⟨some email, some password⟩ lookup).issuerCalled = false ∧
    (login hashData store ⟨some email, some password⟩ lookup).success = false ∧
    (user.password = hashData password →
      (login hashData store ⟨some email, some password⟩ lookup).reason = some "NO_CREDENTIAL") := by
  by_cases hpw : user.password = hashData password
  · simp [login, he, hp, hu, hc, hpw, loginReject]
  · simp [login, he, hp, hu, hc, hpw, loginReject]

/-- Concrete stored principal without a credential for the C3 witness. -/
def c3User : StoredUser :=
  ⟨"Bo", "bo@example.com", "pw1", some "did:user", none, none, "email", some "active", false⟩

def c3Store : Store := [("bo@example.com", c3User)]

/-- Witness for the C3 theorem: the credential-less principal above with a
matching password. -/
theorem no_credential_denies_login_without_issuer_call_witness :
    (login (fun s => s) c3Store ⟨some "bo@example.com", some "pw1"⟩ (.error "unused")).issuerCalled = false ∧
    (login (fun s => s) c3Store ⟨some "bo@example.com", some "pw1"⟩ (.error "unused")).success = false ∧
    (c3User.password = (fun s : String => s) "pw1" →
      (login (fun s => s) c3Store ⟨some "bo@example.com", some "pw1"⟩ (.error "unused")).reason =
        some "NO_CREDENTIAL") :=
  no_credential_denies_login_without_issuer_call (fun s => s) c3Store
    "bo@example.com" "pw1" c3User (.error "unused")
    (by decide) (by decide) (by decide) rfl

/-- C4: when DID creation at the Issuer Service fails with a classified error
(unreachable, unauthorized, timeout, server error — all classified by
didErrorMessage), the register flow that reached it stores no principal
record (the store is unchanged) and surfaces the classified message as the
500 response's details. -/
theorem did_creation_failure_stores_no_principal
    (hashData : String → String) (issuerUrl : String) (store : Store)
    (name email password : String) (e : AxiosError) (credEnv : CredCreateEnv)
    (verifyLookup : Except String IssuerCredResponse)
    (hn : name ≠ "") (he : email ≠ "") (hp : password ≠ "")
    (hex : userExists store email = false)
    (hem : validateEmail email = true) :
    (register hashData issuerUrl store ⟨some name, some email, some password⟩
      ⟨.error e, credEnv, verifyLookup⟩).store = store ∧
    (register hashData issuerUrl store ⟨some name, some email, some password⟩
      ⟨.error e, credEnv, verifyLookup⟩).status = 500 ∧
    (register hashData issuerUrl store ⟨some name, some email, some password⟩
      ⟨.error e, credEnv, verifyLookup⟩).success = false ∧
    (register hashData issuerUrl store ⟨some name, some email, some password⟩
      ⟨.error e, credEnv, verifyLookup⟩).details = some (didErrorMessage issuerUrl e) := by
  have hval : (validateUserData
      ⟨some name, some email, none, some "email", some "active", some false⟩).isValid = true := by
    simp [validateUserData, jsTruthyStr, hn, validAuthMethods]
  simp [register, hn, he, hp, hex, hval, hem, createDIDInIssuer, registerReject]

/-- Witness for the C4 theorem: a concrete registration with a
connection-refused DID creation. -/
theorem did_creation_failure_stores_no_principal_witness :
    (register (fun s => s) "http://localhost:3001" []
      ⟨some "Ana Ruiz", some "ana@example.com", some "s3cr3t"⟩
      ⟨.error ⟨some "ECONNREFUSED", none, "connect ECONNREFUSED 127.0.0.1:3001", none⟩,
       ⟨none, .error ⟨none, none, "unused", none⟩, .ok (), .error ⟨none, none, "unused", none⟩⟩,
       .error "unused"⟩).store = [] ∧
    (register (fun s => s) "http://localhost:3001" []
      ⟨some "Ana Ruiz", some "ana@example.com", some "s3cr3t"⟩
      ⟨.error ⟨some "ECONNREFUSED", none, "connect ECONNREFUSED 127.0.0.1:3001", none⟩,
       ⟨none, .error ⟨none, none, "unused", none⟩, .ok (), .error ⟨none, none, "unused", none⟩⟩,
       .error "unused"⟩).status = 500 ∧
    (register (fun s => s) "http://localhost:3001" []
      ⟨some "Ana Ruiz", some "ana@example.com", some "s3cr3t"⟩
      ⟨.error ⟨some "ECONNREFUSED", none, "connect ECONNREFUSED 127.0.0.1:3001", none⟩,
       ⟨none, .error ⟨none, none, "unused", none⟩, .ok (), .error ⟨none, none, "unused", none⟩⟩,
       .error "unused"⟩).success = false ∧
    (register (fun s => s) "http://localhost:3001" []
      ⟨some "Ana Ruiz", some "ana@example.com", some "s3cr3t"⟩
      ⟨.error ⟨some "ECONNREFUSED", none, "connect ECONNREFUSED 127.0.0.1:3001", none⟩,
       ⟨none, .error ⟨none, none, "unused", none⟩, .ok (), .error ⟨none, none, "unused", none⟩⟩,
       .error "unused"⟩).details =
      some (didErrorMessage "http://localhost:3001"
        ⟨some "ECONNREFUSED", none, "connect ECONNREFUSED 127.0.0.1:3001", none⟩) :=
  did_creation_failure_stores_no_principal (fun s => s) "http://localhost:3001" []
    "Ana Ruiz" "ana@example.com" "s3cr3t"
    ⟨some "ECONNREFUSED", none, "connect ECONNREFUSED 127.0.0.1:3001", none⟩
    ⟨none, .error ⟨none, none, "unused", none⟩, .ok (), .error ⟨none, none, "unused", none⟩⟩
    (.error "unused")
    (by decide) (by decide) (by decide) (by decide) (by decide)

/-- C7: when DID and credential creation succeed but the state publish fails,
the issuance pipeline still completes with a credential (never an error),
and on the path where the follow-up fetch also fails the returned
credential is the bare reference from createCredential — whose proof may be
absent. -/
theorem publish_failure_still_issues
    (issuerDID : String) (ref : Credential) (pe : AxiosError)
    (fetchRes : Except AxiosError IssuerCredResponse) (did : String) (ud : UserData) :
    (createCredentialInIssuer ⟨some issuerDID, .ok ref, .error pe, fetchRes⟩ did ud).isOk = true ∧
    (∀ f, fetchRes = .error f →
      createCredentialInIssuer ⟨some issuerDID, .ok ref, .error pe, fetchRes⟩ did ud = .ok ref) := by
  cases fetchRes with
  | ok resp => exact ⟨rfl, by intro f hf; cases hf⟩
  | error f => exact ⟨rfl, by intro f hf; rfl⟩

/-- Witness for the C7 theorem: a concrete run whose publish and fetch both
fail; the pipeline completes with the proof-less reference credential. -/
theorem publish_failure_still_issues_witness :
    (createCredentialInIssuer
      ⟨some "did:iss", .ok ⟨some "urn:uuid:ref-7", none, none, none, none, none⟩,
       .error ⟨some "ECONNABORTED", none, "timeout of 30000ms exceeded", none⟩,
       .error ⟨some "ECONNABORTED", none, "timeout of 10000ms exceeded", none⟩⟩
      "did:user" ⟨some "Ana", some "ana@example.com", none, some "email", some "active", some false⟩).isOk
      = true ∧
    (createCredentialInIssuer
      ⟨some "did:iss", .ok ⟨some "urn:uuid:ref-7", none, none, none, none, none⟩,
       .error ⟨some "ECONNABORTED", none, "timeout of 30000ms exceeded", none⟩,
       .error ⟨some "ECONNABORTED", none, "timeout of 10000ms exceeded", none⟩⟩
      "did:user" ⟨some "Ana", some "ana@example.com", none, some "email", some "active", some false⟩) =
      .ok ⟨some "urn:uuid:ref-7", none, none, none, none, none⟩ ∧
    (⟨some "urn:uuid:ref-7", none, none, none, none, none⟩ : Credential).proof = none :=
  ⟨(publish_failure_still_issues "did:iss" _ _ _ "did:user" _).1,
   (publish_failure_still_issues "did:iss" _ _ _ "did:user" _).2 _ rfl,
   rfl⟩

/-- Looking up the key just saved returns the saved record. -/
theorem getUser_saveUser (store : Store) (email : String) (u : StoredUser) :
    getUser (saveUser store email u) email = some u := by
  simp [getUser, saveUser, List.find?]

/-- The bare credential reference of the C6 counterexample: the POST
/credentials response carries only an id (the source logs
"Devolviendo solo ID" on this path). -/
def c6BareRef : Credential := ⟨some "urn:uuid:ref-6", none, none, none, none, none⟩

/-- The C6 counterexample environment: DID creation and credential creation
succeed, the post-publish credential fetch times out. -/
def c6Env : RegisterEnv :=
  ⟨.ok ⟨"did:polygonid:polygon:amoy:2qUser6"⟩,
   ⟨some "did:iss", .ok c6BareRef, .ok (),
    .error ⟨some "ECONNABORTED", none, "timeout of 10000ms exceeded", none⟩⟩,
   .error "issuer lookup skipped"⟩

/-- Counterexample to C6 as stated: in this registration createIdentity and
createCredential both succeed (the run completes with status 200), the
credential fetch fails, and the orchestrator falls back to the bare
createCredential reference — so the stored principal's credential has NO
credentialSubject at all, hence no credentialSubject.id equal to the
identity. -/
theorem fallback_path_stores_credential_without_subject :
    (register (fun s => s) "http://localhost:3001" []
      ⟨some "Caro", some "caro@example.com", some "pw123"⟩ c6Env).status = 200 ∧
    ((getUser (register (fun s => s) "http://localhost:3001" []
      ⟨some "Caro", some "caro@example.com", some "pw123"⟩ c6Env).store
      "caro@example.com").bind StoredUser.credential) = some c6BareRef ∧
    c6BareRef.credentialSubject = none :=
  ⟨rfl, rfl, rfl⟩

/-- C6 as amended: when createIdentity and createCredential succeed AND the
post-publish fetch succeeds returning a credential whose subject id is the
created identity, the stored principal's credential.credentialSubject.id
is non-null and equals that identity; on the fallback path (fetch fails)
the stored credential is the raw createCredential reference, which need
not contain a credentialSubject. -/
theorem stored_credential_after_successful_pipeline
    (hashData : String → String) (issuerUrl : String) (store : Store)
    (name email password : String) (didResp : DIDResponse) (issuerDID : String)
    (ref : Credential) (publishRes : Except AxiosError Unit)
    (fetchRes : Except AxiosError IssuerCredResponse)
    (verifyLookup : Except String IssuerCredResponse)
    (hn : name ≠ "") (he : email ≠ "") (hp : password ≠ "")
    (hex : userExists store email = false) (hem : validateEmail email = true) :
    (∀ resp subj, fetchRes = .ok resp →
      (resp.vc.getD resp.asCredential).credentialSubject = some subj →
      subj.id = some didResp.identifier →
      ((((getUser (register hashData issuerUrl store ⟨some name, some email, some password⟩
            ⟨.ok didResp, ⟨some issuerDID, .ok ref, publishRes, fetchRes⟩, verifyLookup⟩).store
          email).bind StoredUser.credential).bind Credential.credentialSubject).bind
        CredentialSubject.id = some didResp.identifier)) ∧
    (∀ f, fetchRes = .error f →
      ((getUser (register hashData issuerUrl store ⟨some name, some email, some password⟩
          ⟨.ok didResp, ⟨some issuerDID, .ok ref, publishRes, fetchRes⟩, verifyLookup⟩).store
        email).bind StoredUser.credential) = some ref) := by
  have hval : (validateUserData
      ⟨some name, some email, none, some "email", some "active", some false⟩).isValid = true := by
    simp [validateUserData, jsTruthyStr, hn, validAuthMethods]
  constructor
  · intro resp subj hf hsubj hid
    subst hf
    simp [register, hn, he, hp, hex, hem, hval, createDIDInIssuer, createCredentialInIssuer,
      getUser_saveUser, hsubj, hid]
  · intro f hf
    subst hf
    simp [register, hn, he, hp, hex, hem, hval, createDIDInIssuer, createCredentialInIssuer,
      getUser_saveUser]

/-- Witness for the amended C6 theorem: a concrete registration whose fetch
succeeds with a credential issued to the created DID. -/
theorem stored_credential_after_successful_pipeline_witness :
    (((getUser (register (fun s => s) "http://localhost:3001" []
          ⟨some "Dana", some "dana@example.com", some "pw6"⟩
          ⟨.ok ⟨"did:polygonid:polygon:amoy:2qDana"⟩,
           ⟨some "did:iss", .ok ⟨some "urn:uuid:ref-6b", none, none, none, none, none⟩, .ok (),
            .ok ⟨none,
                 some ⟨some "urn:uuid:ref-6b", some (.arr ["VerifiableCredential"]), some "did:iss",
                       some "2024-01-01",
                       some ⟨some "did:polygonid:polygon:amoy:2qDana", some "dana@example.com"⟩,
                       none⟩,
                 none, ⟨none, none, none, none, none, none⟩⟩⟩,
           .error "unused"⟩).store
        "dana@example.com").bind StoredUser.credential).bind Credential.credentialSubject).bind
      CredentialSubject.id = some "did:polygonid:polygon:amoy:2qDana" :=
  (stored_credential_after_successful_pipeline (fun s => s) "http://localhost:3001" []
    "Dana" "dana@example.com" "pw6" ⟨"did:polygonid:polygon:amoy:2qDana"⟩ "did:iss"
    ⟨some "urn:uuid:ref-6b", none, none, none, none, none⟩ (.ok ())
    (.ok ⟨none,
          some ⟨some "urn:uuid:ref-6b", some (.arr ["VerifiableCredential"]), some "did:iss",
                some "2024-01-01",
                some ⟨some "did:polygonid:polygon:amoy:2qDana", some "dana@example.com"⟩,
                none⟩,
          none, ⟨none, none, none, none, none, none⟩⟩)
    (.error "unused")
    (by decide) (by decide) (by decide) (by decide) (by decide)).1
    _ _ rfl rfl rfl

/-- A JS substring prefix is no longer than the requested length. -/
theorem jsSubstringTo_length (s : String) (n : Nat) : (jsSubstringTo s n).length ≤ n := by
  have : (jsSubstringTo s n).length = (s.toList.take n).length := rfl
  rw [this, List.length_take]
  exact Nat.min_le_left n _

/-- Anything truncOrNull emits is at most the cut length plus the three
ellipsis dots. -/
theorem truncOrNull_length (o : Option String) (n : Nat) (s : String)
    (h : truncOrNull o n = some s) : s.length ≤ n + 3 := by
  cases o with
  | none => simp [truncOrNull] at h
  | some t =>
    simp only [truncOrNull] at h
    split_ifs at h with ht
    have hs : s = jsSubstringTo t n ++ "..." := by
      cases h
      rfl
    rw [hs, String.length_append]
    have h1 := jsSubstringTo_length t n
    have h2 : ("..." : String).length = 3 := rfl
    omega

/-- Anything stateFieldTrunc emits is at most 23 characters. -/
theorem stateFieldTrunc_length (o : Option String) (s : String)
    (h : stateFieldTrunc o = some s) : s.length ≤ 23 := by
  cases o with
  | none =>
    cases h
    decide
  | some t =>
    have hs : s = jsSubstringTo t 20 ++ "..." := by
      cases h
      rfl
    rw [hs, String.length_append]
    have h1 := jsSubstringTo_length t 20
    have h2 : ("..." : String).length = 3 := rfl
    omega

/-- Every field of a summarized proof entry is redacted: signature and state
values are at most 23 characters, core claims at most 43. -/
theorem summarizeProof_redacted (p : ProofObj) :
    (∀ s, (summarizeProof p).signature = some s → s.length ≤ 23) ∧
    (∀ s, (summarizeProof p).coreClaim = some s → s.length ≤ 43) ∧
    (∀ d, (summarizeProof p).issuerData = some d →
      (∀ s, d.stateValue = some s → s.length ≤ 23) ∧
      (∀ s, d.authCoreClaim = some s → s.length ≤ 43)) := by
  refine ⟨fun s hs => truncOrNull_length _ 20 s hs,
          fun s hs => truncOrNull_length _ 40 s hs,
          fun d hd => ?_⟩
  cases hp : p.issuerData with
  | none => simp [summarizeProof, hp] at hd
  | some d0 =>
    simp only [summarizeProof, hp] at hd
    cases hd
    exact ⟨fun s hs => stateFieldTrunc_length _ s hs,
           fun s hs => truncOrNull_length _ 40 s hs⟩

/-- C5 as amended: the proof summary the verifier attaches to verdicts
(extractProofInfo) is redacted — truncated prefixes, existence flags and
sibling counts only — but the zkpData block attached to the register,
wallet-auth and login responses (extractZkpDataFromCredential) carries the
FIRST proof's raw signature and raw core claim unredacted (only collapsing
the empty string to null); the responses never contain the password
digest, which is stored but not echoed. -/
theorem proof_summary_redacted_but_zkpData_raw :
    (∀ (credentialData : IssuerCredResponse) (entry : ProofInfoEntry),
      entry ∈ (extractProofInfo credentialData).proofs →
      (∀ s, entry.signature = some s → s.length ≤ 23) ∧
      (∀ s, entry.coreClaim = some s → s.length ≤ 43) ∧
      (∀ d, entry.issuerData = some d →
        (∀ s, d.stateValue = some s → s.length ≤ 23) ∧
        (∀ s, d.authCoreClaim = some s → s.length ≤ 43))) ∧
    (∀ (cred : Credential) (did : String) (p : ProofObj) (rest : List ProofObj),
      cred.proof = some (.arr (p :: rest)) →
      (extractZkpDataFromCredential (some cred) did).signature = jsOrNullStr p.signature ∧
      (extractZkpDataFromCredential (some cred) did).coreClaim = jsOrNullStr p.coreClaim) := by
  constructor
  · intro credentialData entry hmem
    have : ∃ p, entry = summarizeProof p := by
      obtain ⟨rev, vc, pts, asCred⟩ := credentialData
      cases vc with
      | none => simp [extractProofInfo] at hmem
      | some vcc =>
        cases hpf : vcc.proof with
        | none => simp [extractProofInfo, hpf] at hmem
        | some pf =>
          cases pf with
          | arr l =>
            simp only [extractProofInfo, hpf, List.mem_map] at hmem
            obtain ⟨p, _, hp⟩ := hmem
            exact ⟨p, hp.symm⟩
          | single p =>
            simp only [extractProofInfo, hpf, List.mem_singleton] at hmem
            exact ⟨p, hmem⟩
    obtain ⟨p, rfl⟩ := this
    exact summarizeProof_redacted p
  · intro cred did p rest h
    simp [extractZkpDataFromCredential, h]

/-- A 64-character hex digest standing in for a raw BJJ signature. -/
def c5RawSig : String :=
  "aabbccddeeff00112233445566778899aabbccddeeff00112233445566778899"

/-- A credential carrying one proof whose signature is the raw digest. -/
def c5Cred : Credential :=
  ⟨some "urn:uuid:ref-5", some (.arr ["VerifiableCredential"]), some "did:iss",
   some "2024-01-01", some ⟨some "did:user5", none⟩,
   some (.arr [⟨some "BJJSignature2021", some c5RawSig, none, none⟩])⟩

/-- Registration environment for the C5 counterexample: issuance succeeds and
the fetched credential carries the proof above. -/
def c5Env : RegisterEnv :=
  ⟨.ok ⟨"did:user5"⟩,
   ⟨some "did:iss", .ok ⟨some "urn:uuid:ref-5", none, none, none, none, none⟩, .ok (),
    .ok ⟨none, some c5Cred, some ["BJJSignature2021"], ⟨none, none, none, none, none, none⟩⟩⟩,
   .error "unused"⟩

/-- Counterexample to C5 as stated: the register success response's zkpData
block carries the credential's raw 64-character signature verbatim — far
longer than the 23-character truncated form — so raw proof material IS
included in user-visible output. -/
theorem register_response_zkpData_contains_raw_signature :
    ((register (fun s => s) "http://localhost:3001" []
        ⟨some "Eva", some "eva@example.com", some "pw5"⟩ c5Env).zkpData.bind
      ZkpData.signature) = some c5RawSig ∧
    23 < c5RawSig.length :=
  ⟨rfl, by decide⟩

/-- Witness for the amended C5 theorem at a concrete issuer response: the
summarized signature entry is at most 23 characters. -/
theorem proof_summary_redacted_but_zkpData_raw_witness :
    (jsSubstringTo c5RawSig 20 ++ "...").length ≤ 23 :=
  ((proof_summary_redacted_but_zkpData_raw.1
      ⟨none, some c5Cred, some ["BJJSignature2021"], ⟨none, none, none, none, none, none⟩⟩
      (summarizeProof ⟨some "BJJSignature2021", some c5RawSig, none, none⟩)
      (by decide)).1 (jsSubstringTo c5RawSig 20 ++ "...") rfl)

/-- C9: the combined-conditions builder (i) never reads unknown condition
keys — its output is unchanged by them, (ii) composes exactly the six
recognized condition keys conjunctively: satisfaction of the combined query
is the conjunction of satisfaction of the individual sub-queries (each
built by the corresponding single-condition constructor), with no
disjunctive combination expressible, and (iii) only emits the six
recognized attribute names. -/
theorem combined_query_conjunctive_and_ignores_unknown_keys :
    (∀ (now : Nat) (c : Conditions),
      createCombinedQuery now c = createCombinedQuery now { c with unknownKeys := [] }) ∧
    (∀ (now : Nat) (c : Conditions) (s : SubjectRecord),
      satisfiesQuery (createCombinedQuery now c) s =
        (satisfiesQuery (match c.isVerified with
           | some b => createVerificationQuery b
           | none => []) s &&
         satisfiesQuery (match c.accountState with
           | some st => if st ≠ "" then createAccountStateQuery st else []
           | none => []) s &&
         satisfiesQuery (match c.authMethod with
           | some m => if m ≠ "" then createAuthMethodQuery m else []
           | none => []) s &&
         satisfiesQuery (match c.minAge with
           | some n => if n ≠ 0 then createAccountAgeQuery now n else []
           | none => []) s &&
         satisfiesQuery (if c.hasEmail then [("email", QOp.opExists)] else []) s &&
         satisfiesQuery (if c.hasWallet then [("walletAddress", QOp.opExists)] else []) s)) ∧
    (∀ (now : Nat) (c : Conditions),
      (createCombinedQuery now c).all (fun kv => combinedQueryKeys.contains kv.1) = true) := by
  refine ⟨?_, ?_, ?_⟩
  · intro now c
    cases c
    rfl
  · intro now c s
    simp only [createCombinedQuery, satisfiesQuery, List.all_append, Bool.and_assoc]
  · intro now c
    rcases c with ⟨iv, ast, am, ma, hasE, hasW, u⟩
    cases iv <;> cases ast <;> cases am <;> cases ma <;> cases hasE <;> cases hasW <;>
      simp only [createCombinedQuery, createVerificationQuery, createAccountStateQuery,
        createAuthMethodQuery, createAccountAgeQuery] <;>
      (try split_ifs) <;> rfl
